/-
  Verification of the libbitcoin peer-channel core (channel_proxy.cpp).

  A shallow embedding of src/src/network/channel_proxy.cpp: the stop/notify
  machinery, the frame-reading completion handlers, the subscribe operations
  and the send path.  Side-effecting member functions are embedded as pure
  functions that return the list of externally visible actions they perform,
  in program order; the per-channel strand serializes handler execution, so
  a handler body runs to completion without interleaving and this trace
  semantics is faithful.
-/
import Mathlib

namespace Libbitcoin

/-- Modelled from the spec: the library error taxonomy of §7 (error.hpp is not
under src/).  `transport_error n` carries the underlying socket error code. -/
inductive ErrorCode
  | success
  | channel_stopped
  | channel_timeout
  | bad_stream
  | transport_error (code : Nat)
  deriving DecidableEq, Repr

/-- Modelled from the spec: a boost error code is either success (`none`) or a
numeric socket error (error.hpp's boost_to_error_code is not under src/); §7
says the original transport error code is surfaced in the terminal status. -/
def boost_to_error_code : Option Nat → ErrorCode
  | none => ErrorCode.success
  | some n => ErrorCode.transport_error n

/-- The thirteen subscribers owned by channel_proxy: eleven typed message
subscribers, the raw subscriber and the stop subscriber. -/
inductive SubscriberId
  | version | verack | address | get_address | inventory | get_data
  | get_blocks | transaction | block | ping | pong | raw | stop_sub
  deriving DecidableEq, Repr

/-- A terminal notification delivered to one subscriber: which subscriber and
with which status. -/
structure Notification where
  target : SubscriberId
  status : ErrorCode
  deriving DecidableEq, Repr

/-- notify_stop<Message>(subscriber) relays error::channel_stopped with a
default-constructed Message (channel_proxy.cpp lines 138-142). -/
def notify_stop (target : SubscriberId) : Notification :=
  { target := target, status := ErrorCode.channel_stopped }

/-- clear_subscriptions(ec) (channel_proxy.cpp lines 196-211): the eleven
typed subscribers are notified via notify_stop, then the raw subscriber and
the stop subscriber are relayed the stop reason ec. -/
def clear_subscriptions (ec : ErrorCode) : List Notification :=
  [ notify_stop SubscriberId.version,
    notify_stop SubscriberId.verack,
    notify_stop SubscriberId.address,
    notify_stop SubscriberId.get_address,
    notify_stop SubscriberId.inventory,
    notify_stop SubscriberId.get_data,
    notify_stop SubscriberId.get_blocks,
    notify_stop SubscriberId.transaction,
    notify_stop SubscriberId.block,
    notify_stop SubscriberId.ping,
    notify_stop SubscriberId.pong,
    { target := SubscriberId.raw, status := ec },
    { target := SubscriberId.stop_sub, status := ec } ]

/-- The channel state relevant to the stop transition: the stopped_ flag, the
reason recorded at the transition, whether the timers are still armed and the
socket open, and the cumulative list of terminal notifications delivered. -/
structure ChannelState where
  stopped_ : Bool
  stop_reason : Option ErrorCode
  timers_active : Bool
  socket_open : Bool
  notifications : List Notification
  deriving DecidableEq, Repr

/-- The state of a freshly constructed, started channel: not stopped, timers
armed, socket open, nothing notified. -/
def initial_state : ChannelState :=
  { stopped_ := false, stop_reason := none, timers_active := true,
    socket_open := true, notifications := [] }

/-- do_stop(ec) (channel_proxy.cpp lines 179-194): if already stopped, return;
otherwise set stopped_, cancel all timers, shutter the socket, and clear all
subscriptions with the stop reason. -/
def do_stop (ec : ErrorCode) (s : ChannelState) : ChannelState :=
  if s.stopped_ then s
  else
    { stopped_ := true,
      stop_reason := some ec,
      timers_active := false,
      socket_open := false,
      notifications := s.notifications ++ clear_subscriptions ec }

/-- stop(ec) (channel_proxy.cpp lines 169-177): if already stopped, return;
otherwise queue do_stop on the dispatcher.  Under the strand the queued
do_stop runs next, so sequentially stop is do_stop guarded by the same flag. -/
def stop_transition (ec : ErrorCode) (s : ChannelState) : ChannelState :=
  if s.stopped_ then s else do_stop ec s

/-- Apply a sequence of stop requests (explicit stops, I/O errors, timer
fires, the destructor's do_stop) in order. -/
def apply_stops (es : List ErrorCode) (s : ChannelState) : ChannelState :=
  es.foldl (fun st e => do_stop e st) s

/-! Message catalog types.  The encoders/decoders and field contents are
external collaborators (spec §1); the channel core uses a message value only
as an opaque payload of a typed relay, and passes a default-constructed value
on termination.  Each type is therefore embedded as an opaque marker type
with its default value. -/

/-- Modelled from the spec: message::version is an external catalog type; only
its default-constructed value appears in the channel core. -/
inductive VersionMsg
  | default_value
  deriving DecidableEq, Repr, Inhabited

/-- Modelled from the spec: message::verack, an external catalog type. -/
inductive VerackMsg
  | default_value
  deriving DecidableEq, Repr, Inhabited

/-- Modelled from the spec: message::address, an external catalog type. -/
inductive AddressMsg
  | default_value
  deriving DecidableEq, Repr, Inhabited

/-- Modelled from the spec: message::get_address, an external catalog type. -/
inductive GetAddressMsg
  | default_value
  deriving DecidableEq, Repr, Inhabited

/-- Modelled from the spec: message::inventory, an external catalog type. -/
inductive InventoryMsg
  | default_value
  deriving DecidableEq, Repr, Inhabited

/-- Modelled from the spec: message::get_data, an external catalog type. -/
inductive GetDataMsg
  | default_value
  deriving DecidableEq, Repr, Inhabited

/-- Modelled from the spec: message::get_blocks, an external catalog type. -/
inductive GetBlocksMsg
  | default_value
  deriving DecidableEq, Repr, Inhabited

/-- Modelled from the spec: chain::transaction, an external catalog type. -/
inductive TransactionMsg
  | default_value
  deriving DecidableEq, Repr, Inhabited

/-- Modelled from the spec: chain::block, an external catalog type. -/
inductive BlockMsg
  | default_value
  deriving DecidableEq, Repr, Inhabited

/-- Modelled from the spec: message::ping, an external catalog type. -/
inductive PingMsg
  | default_value
  deriving DecidableEq, Repr, Inhabited

/-- Modelled from the spec: message::pong, an external catalog type. -/
inductive PongMsg
  | default_value
  deriving DecidableEq, Repr, Inhabited

/-- The frame header (spec §3 and §6): magic, NUL-padded command name,
payload length and payload checksum.  message/header.hpp is not under src/;
the field set and wire layout are modelled from the spec. -/
structure MessageHeader where
  magic : Nat
  command : String
  payload_length : Nat
  checksum : Nat
  deriving DecidableEq, Repr

/-- A default-constructed message::header, as relayed to the raw subscriber
when the channel is already stopped. -/
instance : Inhabited MessageHeader :=
  ⟨{ magic := 0, command := "", payload_length := 0, checksum := 0 }⟩

/-- The outcome of one subscribe call: either the handler was invoked
immediately (with a status and a value) or it was appended to the pending
list of the corresponding subscriber. -/
inductive SubscribeOutcome (M : Type)
  | invoked (status : ErrorCode) (value : M)
  | pending
  deriving DecidableEq, Repr

/-- subscribe_version (channel_proxy.cpp lines 485-492): if stopped, invoke
the handler immediately with (channel_stopped, default message); otherwise
register it with the version subscriber. -/
def subscribe_version (stopped : Bool) : SubscribeOutcome VersionMsg :=
  if stopped then SubscribeOutcome.invoked ErrorCode.channel_stopped default
  else SubscribeOutcome.pending

/-- subscribe_verack (channel_proxy.cpp lines 494-501). -/
def subscribe_verack (stopped : Bool) : SubscribeOutcome VerackMsg :=
  if stopped then SubscribeOutcome.invoked ErrorCode.channel_stopped default
  else SubscribeOutcome.pending

/-- subscribe_address (channel_proxy.cpp lines 503-510). -/
def subscribe_address (stopped : Bool) : SubscribeOutcome AddressMsg :=
  if stopped then SubscribeOutcome.invoked ErrorCode.channel_stopped default
  else SubscribeOutcome.pending

/-- subscribe_get_address (channel_proxy.cpp lines 512-519). -/
def subscribe_get_address (stopped : Bool) : SubscribeOutcome GetAddressMsg :=
  if stopped then SubscribeOutcome.invoked ErrorCode.channel_stopped default
  else SubscribeOutcome.pending

/-- subscribe_inventory (channel_proxy.cpp lines 521-528). -/
def subscribe_inventory (stopped : Bool) : SubscribeOutcome InventoryMsg :=
  if stopped then SubscribeOutcome.invoked ErrorCode.channel_stopped default
  else SubscribeOutcome.pending

/-- subscribe_get_data (channel_proxy.cpp lines 530-537). -/
def subscribe_get_data (stopped : Bool) : SubscribeOutcome GetDataMsg :=
  if stopped then SubscribeOutcome.invoked ErrorCode.channel_stopped default
  else SubscribeOutcome.pending

/-- subscribe_get_blocks (channel_proxy.cpp lines 539-546). -/
def subscribe_get_blocks (stopped : Bool) : SubscribeOutcome GetBlocksMsg :=
  if stopped then SubscribeOutcome.invoked ErrorCode.channel_stopped default
  else SubscribeOutcome.pending

/-- subscribe_transaction (channel_proxy.cpp lines 548-555). -/
def subscribe_transaction (stopped : Bool) : SubscribeOutcome TransactionMsg :=
  if stopped then SubscribeOutcome.invoked ErrorCode.channel_stopped default
  else SubscribeOutcome.pending

/-- subscribe_block (channel_proxy.cpp lines 557-564). -/
def subscribe_block (stopped : Bool) : SubscribeOutcome BlockMsg :=
  if stopped then SubscribeOutcome.invoked ErrorCode.channel_stopped default
  else SubscribeOutcome.pending

/-- subscribe_ping (channel_proxy.cpp lines 566-573). -/
def subscribe_ping (stopped : Bool) : SubscribeOutcome PingMsg :=
  if stopped then SubscribeOutcome.invoked ErrorCode.channel_stopped default
  else SubscribeOutcome.pending

/-- subscribe_pong (channel_proxy.cpp lines 575-582). -/
def subscribe_pong (stopped : Bool) : SubscribeOutcome PongMsg :=
  if stopped then SubscribeOutcome.invoked ErrorCode.channel_stopped default
  else SubscribeOutcome.pending

/-- subscribe_raw (channel_proxy.cpp lines 584-590): when stopped the handler
receives (channel_stopped, default header, empty data chunk). -/
def subscribe_raw (stopped : Bool) : SubscribeOutcome (MessageHeader × List Nat) :=
  if stopped then
    SubscribeOutcome.invoked ErrorCode.channel_stopped (default, [])
  else SubscribeOutcome.pending

/-- subscribe_stop (channel_proxy.cpp lines 592-598): the stop handler takes
only a status, embedded as a Unit-valued subscription. -/
def subscribe_stop (stopped : Bool) : SubscribeOutcome Unit :=
  if stopped then SubscribeOutcome.invoked ErrorCode.channel_stopped ()
  else SubscribeOutcome.pending

/-! The frame reader.  channel_proxy reads a header prefix, then a 4-byte
checksum, then the payload; each async_read completion handler is embedded as
a pure function returning the list of externally visible actions it performs
in program order. -/

/-- Modelled from the spec: the configured network magic constant
bc::magic_value (scenario S1 gives mainnet magic 0xD9B4BEF9). -/
def magic_value : Nat := 0xD9B4BEF9

/-- Modelled from the spec: message::header::size, the byte length of the
header prefix read into inbound_header_ (magic 4 + command 12 +
payload_length 4, spec §6); the checksum is read as a separate 4-byte step
(spec §4.4). -/
def header_size : Nat := 20

/-- Modelled from the spec: message::header::checksum_size, the byte length
of the checksum field (spec §6). -/
def checksum_size : Nat := 4

/-- Little-endian interpretation of a list of bytes as an unsigned integer
(utility/endian.hpp's from_little_endian, not under src/; wire layout from
spec §6). -/
def from_little_endian (bytes : List Nat) : Nat :=
  bytes.foldr (fun b acc => b + 256 * acc) 0

/-- Modelled from the spec: decode the 12-byte NUL-padded ASCII command field
into its command string (spec §3: zero-padded ASCII command name). -/
def parse_command (bytes : List Nat) : String :=
  String.mk ((bytes.takeWhile (fun b => b ≠ 0)).map Char.ofNat)

/-- Modelled from the spec: message::header::from_data over the header-prefix
buffer (message/header.hpp is not under src/).  Parsing succeeds exactly when
the buffer has the full header_size bytes; fields follow the §6 wire layout.
The checksum field is filled in later by handle_read_checksum. -/
def header_from_data (buf : List Nat) : Option MessageHeader :=
  if buf.length = header_size then
    some { magic := from_little_endian (buf.take 4),
           command := parse_command ((buf.drop 4).take 12),
           payload_length := from_little_endian ((buf.drop 16).take 4),
           checksum := 0 }
  else none

/-- Serialize a byte value as count little-endian bytes (spec §6 layout). -/
def to_little_endian (width value : Nat) : List Nat :=
  match width with
  | 0 => []
  | w + 1 => value % 256 :: to_little_endian w (value / 256)

/-- Modelled from the spec: message::header::to_data, the 24-byte wire
serialization of a header per the §6 table (magic, NUL-padded command,
payload_length, checksum, numerics little-endian). -/
def header_to_data (h : MessageHeader) : List Nat :=
  to_little_endian 4 h.magic
    ++ ((h.command.toList.map Char.toNat).take 12
        ++ List.replicate (12 - h.command.length) 0)
    ++ to_little_endian 4 h.payload_length
    ++ to_little_endian 4 h.checksum

/-- The three read steps of the serial inbound pipeline. -/
inductive ReadStep
  | header
  | checksum
  | payload
  deriving DecidableEq, Repr

/-- One externally visible action of a channel_proxy member function, in
program order: requesting a stop, resizing the payload buffer, issuing the
next async_read, re-arming the inactivity timer, relaying the raw frame to
the raw subscriber, or dispatching the payload to the typed-message registry
(stream_loader_). -/
inductive Action
  | stopAction (status : ErrorCode)
  | resizePayload (n : Nat)
  | issueRead (step : ReadStep)
  | startInactivity
  | relayRaw (status : ErrorCode) (header : MessageHeader) (payload : List Nat)
  | loadTyped (command : String) (payload : List Nat)
  deriving DecidableEq, Repr

/-- read_header (channel_proxy.cpp lines 324-332): if stopped, do nothing;
otherwise issue the async read of the header prefix. -/
def read_header (stopped : Bool) : List Action :=
  if stopped then [] else [Action.issueRead ReadStep.header]

/-- read_checksum (channel_proxy.cpp lines 334-342): if stopped, do nothing;
otherwise issue the async read of the 4-byte checksum. -/
def read_checksum (stopped : Bool) : List Action :=
  if stopped then [] else [Action.issueRead ReadStep.checksum]

/-- read_payload (channel_proxy.cpp lines 344-353): if stopped, do nothing;
otherwise resize inbound_payload_ to header.payload_length (no upper bound is
checked) and issue the async read of that many payload bytes. -/
def read_payload (stopped : Bool) (header : MessageHeader) : List Action :=
  if stopped then []
  else [Action.resizePayload header.payload_length,
        Action.issueRead ReadStep.payload]

/-- start_inactivity (channel_proxy.cpp lines 261-269): if stopped, do
nothing; otherwise (re-)arm the inactivity timer. -/
def start_inactivity (stopped : Bool) : List Action :=
  if stopped then [] else [Action.startInactivity]

/-- handle_read_header (channel_proxy.cpp lines 355-392): bail out if
stopped; on a transport error stop with the converted error; otherwise parse
the header prefix and stop with bad_stream when parsing fails or the magic
differs from bc::magic_value; otherwise issue the checksum read and re-arm
the inactivity timer. -/
def handle_read_header (stopped : Bool) (ec : Option Nat)
    (inbound_header : List Nat) : List Action :=
  if stopped then []
  else if ec.isSome then [Action.stopAction (boost_to_error_code ec)]
  else
    match header_from_data inbound_header with
    | none => [Action.stopAction ErrorCode.bad_stream]
    | some header =>
      if header.magic ≠ magic_value then
        [Action.stopAction ErrorCode.bad_stream]
      else
        read_checksum false ++ start_inactivity false

/-- handle_read_checksum (channel_proxy.cpp lines 394-422): bail out if
stopped; on a transport error whose bytes-transferred count does not match
the expected checksum size, stop with the converted error; otherwise (even
under a transport error with matching byte counts, the client-disconnected
tolerance) record the checksum into the header, issue the payload read and
re-arm the inactivity timer. -/
def handle_read_checksum (stopped : Bool) (ec : Option Nat)
    (bytes_transferred : Nat) (inbound_checksum : List Nat)
    (header : MessageHeader) : List Action :=
  if stopped then []
  else if ec.isSome ∧ (bytes_transferred ≠ checksum_size ∨
      bytes_transferred ≠ inbound_checksum.length) then
    [Action.stopAction (boost_to_error_code ec)]
  else
    read_payload false
      { header with checksum := from_little_endian inbound_checksum }
      ++ start_inactivity false

/-- handle_read_payload (channel_proxy.cpp lines 424-483), parameterized over
the external double-SHA256 checksum function chk (math/checksum.hpp's
bitcoin_checksum, not under src/): bail out if stopped; on a transport error
with a byte count not matching the expected payload length, stop with the
converted error; on a checksum mismatch stop with bad_stream; otherwise relay
the raw frame with success status, then (only when the read itself succeeded)
issue the next header read, re-arm the inactivity timer, dispatch the payload
copy to the typed-message registry, and finally, if the read had a tolerated
transport error, stop with that error. -/
def handle_read_payload (chk : List Nat → Nat) (stopped : Bool)
    (ec : Option Nat) (bytes_transferred : Nat) (header : MessageHeader)
    (inbound_payload : List Nat) : List Action :=
  if stopped then []
  else if ec.isSome ∧ (bytes_transferred ≠ header.payload_length ∨
      bytes_transferred ≠ inbound_payload.length) then
    [Action.stopAction (boost_to_error_code ec)]
  else if header.checksum ≠ chk inbound_payload then
    [Action.stopAction ErrorCode.bad_stream]
  else
    [Action.relayRaw ErrorCode.success header inbound_payload]
      ++ (if ec.isSome then [] else read_header false)
      ++ start_inactivity false
      ++ [Action.loadTyped header.command inbound_payload]
      ++ (if ec.isSome then [Action.stopAction (boost_to_error_code ec)]
          else [])

/-! Executor semantics for subscriber delivery.  Spec §4.2: relay detaches
the pending handlers and invokes each via the executor, so handler bodies run
as separately queued strand tasks, after the completion handler that called
relay has itself run to completion. -/

/-- Which family of subscriber handlers a queued delivery runs: the raw
subscriber's handlers, or the typed subscribers reached through the registry
dispatch of a command. -/
inductive HandlerClass
  | raw
  | typed (command : String)
  deriving DecidableEq, Repr

/-- An observable event in the strand's execution order. -/
inductive Event
  | issued (step : ReadStep)
  | stopRequested (status : ErrorCode)
  | inactivityArmed
  | payloadResized (n : Nat)
  | handlerRun (hc : HandlerClass)
  deriving DecidableEq, Repr

/-- The event an action contributes while the handler body itself runs:
relay and registry dispatch only queue handler invocations, so they
contribute nothing here. -/
def bodyEvent : Action → Option Event
  | Action.issueRead s => some (Event.issued s)
  | Action.stopAction e => some (Event.stopRequested e)
  | Action.startInactivity => some Event.inactivityArmed
  | Action.resizePayload n => some (Event.payloadResized n)
  | Action.relayRaw _ _ _ => none
  | Action.loadTyped _ _ => none

/-- The handler invocation an action queues on the executor, if any. -/
def queuedEvent : Action → Option Event
  | Action.relayRaw _ _ _ => some (Event.handlerRun HandlerClass.raw)
  | Action.loadTyped c _ => some (Event.handlerRun (HandlerClass.typed c))
  | _ => none

/-- Modelled from the spec: strand execution of one completion handler's
action trace (§4.2, §4.7) — the body's own effects happen first, in program
order, and the subscriber handler invocations queued by relay and by the
registry dispatch run afterwards, in queue order. -/
def execute (trace : List Action) : List Event :=
  trace.filterMap bodyEvent ++ trace.filterMap queuedEvent

/-- In an event sequence, a header read is issued before any subscriber
handler runs: every handlerRun event is strictly preceded by an
issued-header event. -/
def readIssuedBeforeHandlers (evs : List Event) : Prop :=
  ∀ i hc, evs.get? i = some (Event.handlerRun hc) →
    ∃ j, j < i ∧ evs.get? j = some (Event.issued ReadStep.header)

/-! The send path. -/

/-- One externally visible action of the send path: invoking the completion
handler with a status, queuing do_send_raw on the dispatcher, or submitting
an async_write of the serialized bytes to the socket. -/
inductive SendAction
  | invokeHandler (status : ErrorCode)
  | queueSendTask
  | asyncWrite (bytes : List Nat)
  deriving DecidableEq, Repr

/-- do_send (channel_proxy.cpp lines 600-617): if stopped, invoke the
completion handler with channel_stopped and return; otherwise submit the
async write of the serialized message. -/
def do_send (stopped : Bool) (message : List Nat) : List SendAction :=
  if stopped then [SendAction.invokeHandler ErrorCode.channel_stopped]
  else [SendAction.asyncWrite message]

/-- do_send_raw (channel_proxy.cpp lines 639-651): if stopped, invoke the
completion handler with channel_stopped and return; otherwise serialize the
header, append the payload and call do_send. -/
def do_send_raw (stopped : Bool) (packet_header : MessageHeader)
    (payload : List Nat) : List SendAction :=
  if stopped then [SendAction.invokeHandler ErrorCode.channel_stopped]
  else do_send stopped (header_to_data packet_header ++ payload)

/-- send_raw (channel_proxy.cpp lines 625-637): if stopped, invoke the
completion handler with channel_stopped and return; otherwise queue
do_send_raw on the dispatcher. -/
def send_raw (stopped : Bool) (packet_header : MessageHeader)
    (payload : List Nat) : List SendAction :=
  if stopped then [SendAction.invokeHandler ErrorCode.channel_stopped]
  else [SendAction.queueSendTask]

/-! Theorems. -/

/-- Once a channel is stopped, any further do_stop is a no-op
(channel_proxy.cpp line 181: do_stop returns immediately when stopped()). -/
theorem do_stop_of_stopped (ec : ErrorCode) (s : ChannelState)
    (h : s.stopped_ = true) : do_stop ec s = s := by
  simp [do_stop, h]

/-- Once a channel is stopped, any further sequence of stop requests leaves
the state unchanged. -/
theorem apply_stops_of_stopped (es : List ErrorCode) (s : ChannelState)
    (h : s.stopped_ = true) : apply_stops es s = s := by
  induction es with
  | nil => rfl
  | cons a t ih =>
    show apply_stops t (do_stop a s) = s
    rw [do_stop_of_stopped a s h, ih]

/-- Claim C1 counterexample: the stop transition with first non-success
status bad_stream does not broadcast bad_stream to every subscriber — some
subscriber (in fact each of the eleven typed ones) receives a different
status. -/
theorem claim_C1_counterexample :
    ¬ ∀ n ∈ (do_stop ErrorCode.bad_stream initial_state).notifications,
      n.status = ErrorCode.bad_stream := by
  decide

/-- Claim C1 (amended): for every stop of a running channel with status ec,
the stop transition notifies each subscriber exactly once; the raw subscriber
and the stop subscriber receive ec, while each of the eleven typed message
subscribers receives channel_stopped (with a default-constructed value). -/
theorem claim_C1_amended (ec : ErrorCode) (t : SubscriberId) :
    ((do_stop ec initial_state).notifications).filter
        (fun n => n.target == t) =
      [{ target := t,
         status :=
           if t = SubscriberId.raw ∨ t = SubscriberId.stop_sub then ec
           else ErrorCode.channel_stopped }] := by
  cases t <;> rfl

/-- Claim C2 counterexample: after the channel stops with reason bad_stream,
a subsequent subscribe_version invokes its handler with channel_stopped, not
with the stop reason bad_stream. -/
theorem claim_C2_counterexample :
    (do_stop ErrorCode.bad_stream initial_state).stop_reason =
      some ErrorCode.bad_stream ∧
    subscribe_version (do_stop ErrorCode.bad_stream initial_state).stopped_ =
      SubscribeOutcome.invoked ErrorCode.channel_stopped default ∧
    ErrorCode.channel_stopped ≠ ErrorCode.bad_stream := by
  decide

/-- Claim C2 (amended): for every subscribe operation invoked after the
channel has been stopped — with any reason e — the handler is invoked
immediately, exactly once, with the pair (channel_stopped, default
constructed value), and no handler is left pending; the status is always
channel_stopped, independent of the stop reason. -/
theorem claim_C2_amended (e : ErrorCode) :
    (do_stop e initial_state).stopped_ = true ∧
    subscribe_version true =
      SubscribeOutcome.invoked ErrorCode.channel_stopped default ∧
    subscribe_verack true =
      SubscribeOutcome.invoked ErrorCode.channel_stopped default ∧
    subscribe_address true =
      SubscribeOutcome.invoked ErrorCode.channel_stopped default ∧
    subscribe_get_address true =
      SubscribeOutcome.invoked ErrorCode.channel_stopped default ∧
    subscribe_inventory true =
      SubscribeOutcome.invoked ErrorCode.channel_stopped default ∧
    subscribe_get_data true =
      SubscribeOutcome.invoked ErrorCode.channel_stopped default ∧
    subscribe_get_blocks true =
      SubscribeOutcome.invoked ErrorCode.channel_stopped default ∧
    subscribe_transaction true =
      SubscribeOutcome.invoked ErrorCode.channel_stopped default ∧
    subscribe_block true =
      SubscribeOutcome.invoked ErrorCode.channel_stopped default ∧
    subscribe_ping true =
      SubscribeOutcome.invoked ErrorCode.channel_stopped default ∧
    subscribe_pong true =
      SubscribeOutcome.invoked ErrorCode.channel_stopped default ∧
    subscribe_raw true =
      SubscribeOutcome.invoked ErrorCode.channel_stopped (default, []) ∧
    subscribe_stop true =
      SubscribeOutcome.invoked ErrorCode.channel_stopped () := by
  exact ⟨rfl, rfl, rfl, rfl, rfl, rfl, rfl, rfl, rfl, rfl, rfl, rfl, rfl,
    rfl⟩

/-- Claim C3: the code lacks the mandated payload bound — on a parsed header
whose payload_length is 33554433 (one byte over the recommended 32 MiB
bound), read_payload on a running channel resizes the payload buffer to the
full 33554433 bytes and issues the read, with no bad_stream stop and no
bound check of any kind. -/
theorem claim_C3_code_behavior :
    read_payload false
        { magic := magic_value, command := "block",
          payload_length := 33554433, checksum := 0 } =
      [Action.resizePayload 33554433, Action.issueRead ReadStep.payload] ∧
    33554432 < 33554433 := by
  decide

/-- Claim C4: the stop transition and the terminal notification happen
exactly once per channel lifetime — after a first do_stop with reason e,
every further sequence of stop requests (explicit stops, I/O errors, timer
fires, the destructor's do_stop(channel_stopped)) is a no-op, and the
notifications delivered over the whole lifetime are exactly the single
terminal round for e. -/
theorem claim_C4 (e : ErrorCode) (es : List ErrorCode) :
    (apply_stops es (do_stop e initial_state)).notifications =
      clear_subscriptions e ∧
    (apply_stops es (do_stop e initial_state)).stopped_ = true := by
  rw [apply_stops_of_stopped es (do_stop e initial_state) rfl]
  exact ⟨rfl, rfl⟩

/-- Claim C10: every send operation invoked after the channel has stopped
invokes the completion handler exactly once with channel_stopped and submits
no write to the socket: the action trace of each of send_raw, do_send_raw and
do_send on a stopped channel is exactly one handler invocation with
channel_stopped and contains no async write and no queued task. -/
theorem claim_C10 (packet_header : MessageHeader) (payload : List Nat)
    (message : List Nat) :
    send_raw true packet_header payload =
      [SendAction.invokeHandler ErrorCode.channel_stopped] ∧
    do_send_raw true packet_header payload =
      [SendAction.invokeHandler ErrorCode.channel_stopped] ∧
    do_send true message =
      [SendAction.invokeHandler ErrorCode.channel_stopped] := by
  exact ⟨rfl, rfl, rfl⟩

/-- Claim C5: for every frame whose payload fails the checksum comparison
against header.checksum (and whose read reached that comparison, i.e. did not
already stop on a short transport error), the payload completion handler's
entire action trace is the single bad_stream stop request: the raw subscriber
is not relayed the frame and no payload reaches the typed-message registry. -/
theorem claim_C5 (chk : List Nat → Nat) (ec : Option Nat)
    (bytes_transferred : Nat) (header : MessageHeader)
    (inbound_payload : List Nat)
    (hread : ¬(ec.isSome ∧ (bytes_transferred ≠ header.payload_length ∨
      bytes_transferred ≠ inbound_payload.length)))
    (hchk : header.checksum ≠ chk inbound_payload) :
    handle_read_payload chk false ec bytes_transferred header
        inbound_payload =
      [Action.stopAction ErrorCode.bad_stream] ∧
    (∀ st h p, Action.relayRaw st h p ∉
      handle_read_payload chk false ec bytes_transferred header
        inbound_payload) ∧
    (∀ c p, Action.loadTyped c p ∉
      handle_read_payload chk false ec bytes_transferred header
        inbound_payload) := by
  have htrace : handle_read_payload chk false ec bytes_transferred header
      inbound_payload = [Action.stopAction ErrorCode.bad_stream] := by
    simp only [handle_read_payload, Bool.false_eq_true, if_false]
    rw [if_neg hread, if_pos hchk]
  refine ⟨htrace, ?_, ?_⟩
  · intro st h p hmem
    rw [htrace] at hmem
    simp at hmem
  · intro c p hmem
    rw [htrace] at hmem
    simp at hmem

/-- Claim C5 witness: a concrete frame with a wrong checksum is rejected with
exactly the bad_stream stop. -/
theorem claim_C5_witness :
    handle_read_payload (fun _ => 0) false none 0
        { magic := magic_value, command := "ping", payload_length := 0,
          checksum := 1 } [] =
      [Action.stopAction ErrorCode.bad_stream] :=
  (claim_C5 (fun _ => 0) none 0
    { magic := magic_value, command := "ping", payload_length := 0,
      checksum := 1 } [] (by decide) (by decide)).1

/-- Claim C6: for every header read that completes successfully (no transport
error), if the header fails to parse or its magic differs from the configured
network magic, the header completion handler's entire action trace is the
single bad_stream stop request — in particular no checksum read and no
payload read is issued for that frame. -/
theorem claim_C6 (inbound_header : List Nat)
    (hbad : header_from_data inbound_header = none ∨
      ∃ h, header_from_data inbound_header = some h ∧
        h.magic ≠ magic_value) :
    handle_read_header false none inbound_header =
      [Action.stopAction ErrorCode.bad_stream] ∧
    ∀ s, Action.issueRead s ∉
      handle_read_header false none inbound_header := by
  have htrace : handle_read_header false none inbound_header =
      [Action.stopAction ErrorCode.bad_stream] := by
    rcases hbad with hnone | ⟨h, hsome, hmag⟩
    · simp [handle_read_header, hnone]
    · simp [handle_read_header, hsome, hmag]
  refine ⟨htrace, ?_⟩
  intro s
  rw [htrace]
  simp

/-- Claim C6 witness: a concrete 20-byte header buffer whose magic field is
zero is rejected with exactly the bad_stream stop. -/
theorem claim_C6_witness :
    handle_read_header false none (List.replicate 20 0) =
      [Action.stopAction ErrorCode.bad_stream] :=
  (claim_C6 (List.replicate 20 0)
    (Or.inr ⟨{ magic := 0, command := "", payload_length := 0, checksum := 0 }, by decide, by decide⟩)).1

/-- Claim C7 counterexample: on a payload read that completes with transport
error 104 but a bytes-transferred count matching the expected size, the code
does relay the frame — the raw subscriber receives the frame (with success
status) even though the read errored, contradicting the claim that nothing is
relayed on any error with matching byte counts. -/
theorem claim_C7_counterexample :
    Action.relayRaw ErrorCode.success
        { magic := magic_value, command := "ping", payload_length := 0,
          checksum := 0 } [] ∈
      handle_read_payload (fun _ => 0) false (some 104) 0
        { magic := magic_value, command := "ping", payload_length := 0,
          checksum := 0 } [] := by
  decide

/-- Claim C7 (amended): when a checksum or payload read completes with a
non-success transport error but the bytes-transferred count matches the
expected size, the code tolerates the error and processes the frame: the
checksum completion handler proceeds to issue the payload read, and the
payload completion handler (when the checksum verifies) relays the raw frame
with success status, dispatches the payload to the typed registry, does not
issue the next header read, and stops the channel with the transport error at
the very end. -/
theorem claim_C7_amended (chk : List Nat → Nat) (n : Nat)
    (b0 b1 b2 b3 : Nat) (header : MessageHeader) (payload : List Nat)
    (hlen : header.payload_length = payload.length)
    (hchk : header.checksum = chk payload) :
    handle_read_checksum false (some n) 4 [b0, b1, b2, b3] header =
      [Action.resizePayload header.payload_length,
       Action.issueRead ReadStep.payload, Action.startInactivity] ∧
    handle_read_payload chk false (some n) payload.length header payload =
      [Action.relayRaw ErrorCode.success header payload,
       Action.startInactivity,
       Action.loadTyped header.command payload,
       Action.stopAction (ErrorCode.transport_error n)] := by
  constructor
  · simp [handle_read_checksum, checksum_size, read_payload,
      start_inactivity]
  · simp [handle_read_payload, hlen, hchk, start_inactivity,
      boost_to_error_code]

/-- Claim C7 witness: the amended behavior at a concrete tolerated transport
error (code 104) on an empty-payload frame. -/
theorem claim_C7_amended_witness :
    handle_read_checksum false (some 104) 4 [0, 0, 0, 0]
        { magic := magic_value, command := "ping", payload_length := 0,
          checksum := 0 } =
      [Action.resizePayload 0, Action.issueRead ReadStep.payload,
       Action.startInactivity] ∧
    handle_read_payload (fun _ => 0) false (some 104) 0
        { magic := magic_value, command := "ping", payload_length := 0,
          checksum := 0 } [] =
      [Action.relayRaw ErrorCode.success
         { magic := magic_value, command := "ping", payload_length := 0,
           checksum := 0 } [],
       Action.startInactivity, Action.loadTyped "ping" [],
       Action.stopAction (ErrorCode.transport_error 104)] :=
  claim_C7_amended (fun _ => 0) 104 0 0 0 0
    { magic := magic_value, command := "ping", payload_length := 0,
      checksum := 0 } [] rfl rfl

/-- Claim C8: for every successfully verified frame (read completed with
success status and checksum verified), the next header read is issued before
any subscriber handler runs: in the strand's event order for the payload
completion handler, every handler invocation — raw-subscriber handlers and
the typed handlers reached through the registry dispatch alike — is strictly
preceded by the issuance of the next header read. -/
theorem claim_C8 (chk : List Nat → Nat) (bytes_transferred : Nat)
    (header : MessageHeader) (payload : List Nat)
    (hchk : header.checksum = chk payload) :
    readIssuedBeforeHandlers
      (execute (handle_read_payload chk false none bytes_transferred header
        payload)) := by
  have htrace : handle_read_payload chk false none bytes_transferred header
      payload =
      [Action.relayRaw ErrorCode.success header payload,
       Action.issueRead ReadStep.header, Action.startInactivity,
       Action.loadTyped header.command payload] := by
    simp [handle_read_payload, hchk, read_header, start_inactivity]
  rw [htrace]
  intro i hc h
  cases i with
  | zero => simp [execute, bodyEvent, queuedEvent] at h
  | succ i =>
    cases i with
    | zero => simp [execute, bodyEvent, queuedEvent] at h
    | succ n => exact ⟨0, by omega, rfl⟩

/-- Claim C8 witness: the ordering property at a concrete verified frame. -/
theorem claim_C8_witness :
    readIssuedBeforeHandlers
      (execute (handle_read_payload (fun _ => 0) false none 0
        { magic := magic_value, command := "ping", payload_length := 0,
          checksum := 0 } [])) :=
  claim_C8 (fun _ => 0) 0
    { magic := magic_value, command := "ping", payload_length := 0,
      checksum := 0 } [] rfl

/-- Claim C9: at every read-step completion along the non-stopping path the
inactivity timer is re-armed before the handler returns — the header handler
(on parse and magic success) issues the checksum read and re-arms inactivity,
the checksum handler issues the payload read and re-arms inactivity, and the
payload handler (on success with a verified checksum) issues the next header
read and re-arms inactivity; so whenever a read step is outstanding the
inactivity timer has just been armed. -/
theorem claim_C9 (chk : List Nat → Nat) (inbound_header : List Nat)
    (h : MessageHeader) (bytes1 : Nat) (checksum_buf : List Nat)
    (header1 : MessageHeader) (bytes2 : Nat) (header2 : MessageHeader)
    (payload : List Nat)
    (hsome : header_from_data inbound_header = some h)
    (hmag : h.magic = magic_value)
    (hchk : header2.checksum = chk payload) :
    handle_read_header false none inbound_header =
      [Action.issueRead ReadStep.checksum, Action.startInactivity] ∧
    handle_read_checksum false none bytes1 checksum_buf header1 =
      [Action.resizePayload header1.payload_length,
       Action.issueRead ReadStep.payload, Action.startInactivity] ∧
    handle_read_payload chk false none bytes2 header2 payload =
      [Action.relayRaw ErrorCode.success header2 payload,
       Action.issueRead ReadStep.header, Action.startInactivity,
       Action.loadTyped header2.command payload] := by
  refine ⟨?_, ?_, ?_⟩
  · simp [handle_read_header, hsome, hmag, read_checksum, start_inactivity]
  · simp [handle_read_checksum, read_payload, start_inactivity]
  · simp [handle_read_payload, hchk, read_header, start_inactivity]

/-- Claim C9 witness: the three re-arm equations at concrete inputs — a
header buffer carrying the mainnet magic, a zero checksum buffer and an
empty verified payload. -/
theorem claim_C9_witness :
    handle_read_header false none
        ([0xF9, 0xBE, 0xB4, 0xD9] ++ List.replicate 16 0) =
      [Action.issueRead ReadStep.checksum, Action.startInactivity] ∧
    handle_read_checksum false none 4 [0, 0, 0, 0]
        { magic := magic_value, command := "ping", payload_length := 0,
          checksum := 0 } =
      [Action.resizePayload 0, Action.issueRead ReadStep.payload,
       Action.startInactivity] ∧
    handle_read_payload (fun _ => 0) false none 0
        { magic := magic_value, command := "ping", payload_length := 0,
          checksum := 0 } [] =
      [Action.relayRaw ErrorCode.success
         { magic := magic_value, command := "ping", payload_length := 0,
           checksum := 0 } [],
       Action.issueRead ReadStep.header, Action.startInactivity,
       Action.loadTyped "ping" []] :=
  claim_C9 (fun _ => 0) ([0xF9, 0xBE, 0xB4, 0xD9] ++ List.replicate 16 0)
    { magic := magic_value, command := "", payload_length := 0, checksum := 0 }
    4 [0, 0, 0, 0]
    { magic := magic_value, command := "ping", payload_length := 0, checksum := 0 }
    0
    { magic := magic_value, command := "ping", payload_length := 0, checksum := 0 }
    [] (by decide) (by decide) rfl

end Libbitcoin
